import Mathlib

/-!
Shallow embedding of the order-processing core and of the user-management
services of the smarter-testing-ecommerce repository.

The Order entity, the Order Service and the Order Repository aggregates are
modelled from spec.md (§3, §4, §6): the repository ships only their Jest test
files (order.service.spec.ts, order.repository.spec.ts); the implementation
files order.service.ts, order.entity.ts and order.repository.ts are not in
the source tree.  Monetary values are rationals (the spec mandates a
decimal-safe representation, §9).

UserService.register, ProductService.updateProduct and
UserService.getUserDisplayName are translated directly from
src/services/user-management/services/user.service.ts.
-/

namespace ECom

/-- Modelled from the spec: order lifecycle status enum (spec §3); the file
order.entity.ts is absent from the source tree. -/
inductive OrderStatus where
  | PENDING
  | CONFIRMED
  | SHIPPED
  | DELIVERED
  | CANCELLED
deriving DecidableEq, Repr

/-- Modelled from the spec: payment status enum (spec §3); the file
order.entity.ts is absent from the source tree. -/
inductive PaymentStatus where
  | PENDING
  | PAID
  | FAILED
deriving DecidableEq, Repr

/-- Modelled from the spec: one order line item (spec §3); the file
order.entity.ts is absent from the source tree. -/
structure OrderItem where
  productId : String
  productName : String
  productSku : String
  unitPrice : ℚ
  quantity : Int
  subtotal : ℚ
deriving DecidableEq, Repr

/-- Modelled from the spec: structural shipping address (spec §3). -/
structure Address where
  street : String
  city : String
  state : String
  postalCode : String
  country : String
deriving DecidableEq, Repr

/-- Modelled from the spec: the Order entity (spec §3); timestamps are
abstract instants (naturals). -/
structure Order where
  id : String
  orderNumber : String
  userId : String
  items : List OrderItem
  subtotal : ℚ
  taxAmount : ℚ
  shippingCost : ℚ
  discountCode : Option String
  discountAmount : Option ℚ
  total : ℚ
  status : OrderStatus
  paymentStatus : PaymentStatus
  createdAt : Nat
  paidAt : Option Nat
  shippedAt : Option Nat
  deliveredAt : Option Nat
  cancelledAt : Option Nat
  trackingNumber : Option String
  shippingAddress : Address
deriving DecidableEq, Repr

/-- Modelled from the spec: error taxonomy of the order core (spec §7). -/
inductive OrderError where
  | validationError (msg : String)
  | notFoundError (msg : String)
  | invalidStateTransitionError (msg : String)
deriving DecidableEq, Repr

/-- Modelled from the spec: `canBeCancelled()` of the Order entity
(spec §4.2): true iff status is PENDING or CONFIRMED. -/
def Order.canBeCancelled (o : Order) : Bool :=
  match o.status with
  | .PENDING => true
  | .CONFIRMED => true
  | _ => false

/-- Modelled from the spec: `isFulfilled()` of the Order entity (spec §4.2). -/
def Order.isFulfilled (o : Order) : Bool :=
  match o.status with
  | .DELIVERED => true
  | _ => false

/-- Modelled from the spec: `isPaid()` of the Order entity (spec §4.2). -/
def Order.isPaid (o : Order) : Bool :=
  match o.paymentStatus with
  | .PAID => true
  | _ => false

/-- Modelled from the spec: `getTotalItemsCount()` of the Order entity
(spec §4.2): sum of item quantities. -/
def Order.getTotalItemsCount (o : Order) : Int :=
  (o.items.map OrderItem.quantity).sum

/-- Modelled from the spec: `calculateTotal()` of the Order entity
(spec §4.2, §4.3): subtotal + taxAmount + shippingCost − discountAmount,
with the discount defaulting to 0 when absent. -/
def Order.calculateTotal (o : Order) : ℚ :=
  o.subtotal + o.taxAmount + o.shippingCost - o.discountAmount.getD 0

/-- Modelled from the spec: `calculateSubtotal()` of the Order entity
(spec §4.2): sum of the item subtotals. -/
def Order.calculateSubtotal (o : Order) : ℚ :=
  (o.items.map OrderItem.subtotal).sum

/-- Rounding to two decimal places, used by the Monetary Calculator
(spec §4.1). -/
def round2 (q : ℚ) : ℚ :=
  ((⌊q * 100 + 1 / 2⌋ : ℤ) : ℚ) / 100

/-- Modelled from the spec: `computeSubtotal(items)` of the Monetary
Calculator (spec §4.1): sums unitPrice × quantity across items. -/
def computeSubtotal (items : List OrderItem) : ℚ :=
  (items.map fun i => i.unitPrice * (i.quantity : ℚ)).sum

/-- Modelled from the spec: `computeTax(subtotal)` of the Monetary
Calculator (spec §4.1): round2 of 10 % of the subtotal. -/
def computeTax (subtotal : ℚ) : ℚ :=
  round2 (subtotal * (10 / 100))

/-- Modelled from the spec: `defaultShippingCost()` of the Monetary
Calculator (spec §4.1): the flat constant 10.00. -/
def defaultShippingCost : ℚ := 10

/-- The persisted order store: association list from order id to order,
the persistence boundary behind the Order Repository (spec §6). -/
abbrev OrderStore := List (String × Order)

/-- Modelled from the spec: `findById` of the Order Repository (spec §6):
the stored order, or none when absent. -/
def findOrder (st : OrderStore) (id : String) : Option Order :=
  match st with
  | [] => none
  | p :: rest => if p.1 = id then some p.2 else findOrder rest id

/-- Replacement of the order stored under `id`, the single-row write the
Order Repository performs for every update operation (spec §6). -/
def setOrder (st : OrderStore) (id : String) (o : Order) : OrderStore :=
  st.map fun p => if p.1 = id then (id, o) else p

/-- Read-modify-write shape shared by every Order Service mutation other
than creation (spec §4.3): read the order by id, validate and transform it,
persist the result through the Repository. -/
def updateWith (st : OrderStore) (id : String)
    (f : Order → Except OrderError Order) :
    Except OrderError Order × OrderStore :=
  match findOrder st id with
  | none => (.error (.notFoundError "Order not found"), st)
  | some o =>
    match f o with
    | .error e => (.error e, st)
    | .ok o' => (.ok o', setOrder st id o')

/-- JavaScript truthiness of the optional payment reference: present and not
the empty string (spec §4.3: "present/truthy"). -/
def truthy (ref : Option String) : Bool :=
  match ref with
  | some s => !s.isEmpty
  | none => false

namespace OrderService

/-- Modelled from the spec: the fresh order record `createOrder` builds on a
valid input (spec §4.3): computed subtotal, 10 % tax, default shipping cost,
order number `ORD-<year>-<sequence>`, status PENDING, paymentStatus PENDING;
the file order.service.ts is absent from the source tree. -/
def mkNewOrder (newId : String) (year seq now : Nat) (userId : String)
    (items : List OrderItem) (addr : Address) : Order :=
  let sub := computeSubtotal items
  let tax := computeTax sub
  let ship := defaultShippingCost
  { id := newId
    orderNumber := "ORD-" ++ toString year ++ "-" ++ toString seq
    userId := userId
    items := items
    subtotal := sub
    taxAmount := tax
    shippingCost := ship
    discountCode := none
    discountAmount := none
    total := sub + tax + ship
    status := .PENDING
    paymentStatus := .PENDING
    createdAt := now
    paidAt := none
    shippedAt := none
    deliveredAt := none
    cancelledAt := none
    trackingNumber := none
    shippingAddress := addr }

/-- Modelled from the spec: `createOrder(userId, items, shippingAddress)` of
the Order Service (spec §4.3, §4.1): rejects an empty item list, then any
non-positive quantity, then any negative unit price, all before the
Repository persistence call; otherwise persists and returns the new order.
The file order.service.ts is absent from the source tree. -/
def createOrder (st : OrderStore) (newId : String) (year seq now : Nat)
    (userId : String) (items : List OrderItem) (addr : Address) :
    Except OrderError Order × OrderStore :=
  if items.isEmpty then
    (.error (.validationError "Order must contain at least one item"), st)
  else if items.any fun i => decide (i.quantity ≤ 0) then
    (.error (.validationError "Item quantity must be positive"), st)
  else if items.any fun i => decide (i.unitPrice < 0) then
    (.error (.validationError "Item price cannot be negative"), st)
  else
    let o := mkNewOrder newId year seq now userId items addr
    (.ok o, (newId, o) :: st)

/-- Modelled from the spec: `getOrderById(id)` of the Order Service
(spec §4.3): pure read, NotFoundError when absent. -/
def getOrderById (st : OrderStore) (id : String) : Except OrderError Order :=
  match findOrder st id with
  | none => .error (.notFoundError "Order not found")
  | some o => .ok o

/-- Modelled from the spec: the transform `confirmOrder(id)` applies to the
order it read (spec §4.3): the only legal edge into CONFIRMED starts at
PENDING (spec §4.3 state graph). -/
def confirmStep (o : Order) : Except OrderError Order :=
  match o.status with
  | .PENDING => .ok { o with status := .CONFIRMED }
  | _ => .error (.invalidStateTransitionError
      "Order cannot be confirmed in current status")

/-- Modelled from the spec: `confirmOrder(id)` (spec §4.3). -/
def confirmOrder (st : OrderStore) (id : String) :
    Except OrderError Order × OrderStore :=
  updateWith st id confirmStep

/-- Modelled from the spec: the transform `processPayment` applies
(spec §4.3): paymentStatus PAID with paidAt = now on a truthy reference,
paymentStatus FAILED otherwise; the order Status axis is untouched. -/
def payStep (ref : Option String) (now : Nat) (o : Order) :
    Except OrderError Order :=
  if truthy ref then
    .ok { o with paymentStatus := .PAID, paidAt := some now }
  else
    .ok { o with paymentStatus := .FAILED }

/-- Modelled from the spec: `processPayment(id, paymentReference)`
(spec §4.3). -/
def processPayment (st : OrderStore) (id : String) (ref : Option String)
    (now : Nat) : Except OrderError Order × OrderStore :=
  updateWith st id (payStep ref now)

/-- Modelled from the spec: the transform `shipOrder` applies (spec §4.3):
the only legal edge into SHIPPED starts at CONFIRMED; payment is
deliberately not checked (spec §4.3, §9). -/
def shipStep (tracking : String) (now : Nat) (o : Order) :
    Except OrderError Order :=
  match o.status with
  | .CONFIRMED => .ok { o with
      status := .SHIPPED
      shippedAt := some now
      trackingNumber := some tracking }
  | _ => .error (.invalidStateTransitionError
      "Order cannot be shipped in current status")

/-- Modelled from the spec: `shipOrder(id, trackingNumber)` (spec §4.3). -/
def shipOrder (st : OrderStore) (id : String) (tracking : String)
    (now : Nat) : Except OrderError Order × OrderStore :=
  updateWith st id (shipStep tracking now)

/-- Modelled from the spec: the transform `deliverOrder` applies
(spec §4.3): the only legal edge into DELIVERED starts at SHIPPED. -/
def deliverStep (now : Nat) (o : Order) : Except OrderError Order :=
  match o.status with
  | .SHIPPED => .ok { o with status := .DELIVERED, deliveredAt := some now }
  | _ => .error (.invalidStateTransitionError
      "Order cannot be delivered in current status")

/-- Modelled from the spec: `deliverOrder(id)` (spec §4.3). -/
def deliverOrder (st : OrderStore) (id : String) (now : Nat) :
    Except OrderError Order × OrderStore :=
  updateWith st id (deliverStep now)

/-- Modelled from the spec: the transform `cancelOrder` applies (spec
§4.3): checks `canBeCancelled()`, fails with the fixed
InvalidStateTransitionError message when illegal, otherwise sets status
CANCELLED and cancelledAt. -/
def cancelStep (now : Nat) (o : Order) : Except OrderError Order :=
  if o.canBeCancelled then
    .ok { o with status := .CANCELLED, cancelledAt := some now }
  else
    .error (.invalidStateTransitionError
      "Order cannot be cancelled in current status")

/-- Modelled from the spec: `cancelOrder(id)` (spec §4.3). -/
def cancelOrder (st : OrderStore) (id : String) (now : Nat) :
    Except OrderError Order × OrderStore :=
  updateWith st id (cancelStep now)

/-- Modelled from the spec: the order as rewritten by a successful
`applyDiscount` (spec §4.3): discountCode and discountAmount set, total
recomputed as subtotal + taxAmount + shippingCost − amount. -/
def discountedOrder (o : Order) (code : String) (amount : ℚ) : Order :=
  { o with
    discountCode := some code
    discountAmount := some amount
    total := o.subtotal + o.taxAmount + o.shippingCost - amount }

/-- Modelled from the spec: the transform `applyDiscount` applies
(spec §4.3): rejects a non-positive amount, then an amount above the
current subtotal, otherwise records the discount and recomputes the
total. -/
def discountStep (code : String) (amount : ℚ) (o : Order) :
    Except OrderError Order :=
  if amount ≤ 0 then
    .error (.validationError "Discount amount must be positive")
  else if o.subtotal < amount then
    .error (.validationError "Discount amount cannot exceed order subtotal")
  else
    .ok (discountedOrder o code amount)

/-- Modelled from the spec: `applyDiscount(id, code, amount)`
(spec §4.3). -/
def applyDiscount (st : OrderStore) (id : String) (code : String)
    (amount : ℚ) : Except OrderError Order × OrderStore :=
  updateWith st id (discountStep code amount)

/-- Modelled from the spec: `getOrderTotal(id)` (spec §4.3): reads the order
and returns subtotal + taxAmount + shippingCost − discountAmount, the
discount defaulting to 0 when absent. -/
def getOrderTotal (st : OrderStore) (id : String) : Except OrderError ℚ :=
  match findOrder st id with
  | none => .error (.notFoundError "Order not found")
  | some o => .ok o.calculateTotal

/-- Modelled from the spec: the Repository revenue aggregate behind
`getTotalRevenue()` (spec §4.3, §6, repository tests lines 158–187): the sum
of `total` over the stored orders whose paymentStatus is PAID. -/
def getTotalRevenue (st : OrderStore) : ℚ :=
  st.foldr (fun p acc =>
    if p.2.paymentStatus = .PAID then p.2.total + acc else acc) 0

end OrderService

/-- Result of `validatePasswordStrength` (imported by user.service.ts from
the auth library): a verdict plus the list of rule violations. -/
structure PasswordValidation where
  valid : Bool
  errors : List String
deriving DecidableEq, Repr

/-- RegisterDto of user.service.ts (lines 22–28). -/
structure RegisterDto where
  email : String
  password : String
  firstName : String
  lastName : String
  phoneNumber : Option String
deriving DecidableEq, Repr

/-- Observable side effect of `UserService.register`: the repository
persistence call and the two notification sends (user.service.ts lines
72–85); the repository-assigned user id is abstracted away. -/
inductive UserEffect where
  | createUser (email hashedPassword firstName lastName : String)
      (phoneNumber : Option String) (emailVerificationToken : String)
  | sendWelcomeEmail (email firstName : String)
  | sendVerificationEmail (email token : String)
deriving DecidableEq, Repr

/-- Error kinds thrown by user.service.ts (imported from the errors
library). -/
inductive UserError where
  | badRequestError (msg : String)
  | unauthorizedError (msg : String)
deriving DecidableEq, Repr

namespace UserService

/-- Translation of `UserService.register` (user.service.ts lines 58–88).
The external password validator and hash, and the random verification
token, enter as parameters; the returned list records the repository and
notification calls in program order.  The code first runs
`validatePasswordStrength` and throws `BadRequestError` with the
comma-joined rule violations when it fails; only afterwards does it hash,
call `createUser`, and (when a notification service was injected) send the
welcome and verification emails. -/
def register (validatePasswordStrength : String → PasswordValidation)
    (hashPassword : String → String) (freshToken : String)
    (hasNotificationService : Bool) (data : RegisterDto) :
    List UserEffect × Except UserError Unit :=
  let v := validatePasswordStrength data.password
  if !v.valid then
    ([], .error (.badRequestError (String.intercalate ", " v.errors)))
  else
    let hashed := hashPassword data.password
    let createCall := UserEffect.createUser data.email hashed data.firstName
      data.lastName data.phoneNumber freshToken
    if hasNotificationService then
      ([createCall,
        .sendWelcomeEmail data.email data.firstName,
        .sendVerificationEmail data.email freshToken], .ok ())
    else
      ([createCall], .ok ())

/-- JavaScript `String.prototype.trim`: leading and trailing whitespace
removed from both ends, modelled over the character list. -/
def trimString (s : String) : String :=
  ⟨((s.data.dropWhile Char.isWhitespace).reverse.dropWhile
      Char.isWhitespace).reverse⟩

/-- User fields read by the display-name helpers of user.service.ts. -/
structure UserRecord where
  email : String
  firstName : String
  lastName : String
deriving DecidableEq, Repr

/-- Translation of `UserService.getUserFullName` (user.service.ts lines
374–376): the trimmed interpolation of firstName, a space, and lastName. -/
def getUserFullName (u : UserRecord) : String :=
  trimString (u.firstName ++ " " ++ u.lastName)

/-- Translation of `UserService.getUserDisplayName` (user.service.ts lines
391–394): the full name when truthy (non-empty), else the email. -/
def getUserDisplayName (u : UserRecord) : String :=
  let fullName := getUserFullName u
  if fullName = "" then u.email else fullName

end UserService

/-- UpdateProductDto of the Product Service (user.service.ts bundle, lines
996–1004): every field optional. -/
structure UpdateProductDto where
  name : Option String
  description : Option String
  price : Option ℚ
  compareAtPrice : Option ℚ
  categoryId : Option String
deriving DecidableEq, Repr

/-- The repository call `ProductService.updateProduct` delegates to on the
success path (user.service.ts bundle, line 1056). -/
inductive ProductRepoCall where
  | update (productId : String) (data : UpdateProductDto)
deriving DecidableEq, Repr

namespace ProductService

/-- Translation of `ProductService.updateProduct` (user.service.ts bundle,
lines 1043–1057): price, when present, must be positive; compareAtPrice is
checked against price only when both are present; otherwise the payload is
handed to `productRepository.update` unchanged. -/
def updateProduct (productId : String) (data : UpdateProductDto) :
    Except UserError ProductRepoCall :=
  match data.price with
  | some p =>
    if p ≤ 0 then .error (.badRequestError "Price must be positive")
    else
      match data.compareAtPrice with
      | some c =>
        if c ≤ p then
          .error (.badRequestError "Compare at price must be higher than price")
        else .ok (.update productId data)
      | none => .ok (.update productId data)
  | none => .ok (.update productId data)

end ProductService

/-- Monetary total invariant of the Order data model (spec §3): total equals
subtotal + taxAmount + shippingCost − discountAmount, the discount
defaulting to 0 when absent. -/
def totalInvariant (o : Order) : Prop :=
  o.total = o.subtotal + o.taxAmount + o.shippingCost - o.discountAmount.getD 0

instance (o : Order) : Decidable (totalInvariant o) :=
  inferInstanceAs (Decidable
    (o.total = o.subtotal + o.taxAmount + o.shippingCost - o.discountAmount.getD 0))

/-- Every order held in the store satisfies the monetary total invariant. -/
def storeInvariant (st : OrderStore) : Prop :=
  ∀ p ∈ st, totalInvariant p.2

instance (st : OrderStore) : Decidable (storeInvariant st) :=
  inferInstanceAs (Decidable (∀ p ∈ st, totalInvariant p.2))

/-- Sample shipping address used by the concrete evaluations (taken from
order.service.spec.ts lines 50–56). -/
def sampleAddress : Address :=
  { street := "123 Main St"
    city := "New York"
    state := "NY"
    postalCode := "10001"
    country := "USA" }

/-- Sample line item priced 50.00 at quantity 2 (order.service.spec.ts
lines 41–48). -/
def sampleItem50x2 : OrderItem :=
  { productId := "prod-1"
    productName := "Product 1"
    productSku := "SKU-001"
    unitPrice := 50
    quantity := 2
    subtotal := 100 }

/-- Sample line item priced 30.00 at quantity 3 (order.service.spec.ts
lines 114–121). -/
def sampleItem30x3 : OrderItem :=
  { productId := "prod-2"
    productName := "Product 2"
    productSku := "SKU-002"
    unitPrice := 30
    quantity := 3
    subtotal := 90 }

/-- Sample pending order: subtotal 100, tax 10, shipping 10, no discount,
total 120 (the end-to-end scenario of spec §8). -/
def sampleOrder : Order :=
  { id := "order-123"
    orderNumber := "ORD-2024-001"
    userId := "user-123"
    items := [sampleItem50x2]
    subtotal := 100
    taxAmount := 10
    shippingCost := 10
    discountCode := none
    discountAmount := none
    total := 120
    status := .PENDING
    paymentStatus := .PENDING
    createdAt := 0
    paidAt := none
    shippedAt := none
    deliveredAt := none
    cancelledAt := none
    trackingNumber := none
    shippingAddress := sampleAddress }

/-- Sample order already shipped, hence no longer cancellable. -/
def sampleShippedOrder : Order :=
  { sampleOrder with
    id := "order-456"
    status := .SHIPPED
    trackingNumber := some "TRACK-123"
    shippedAt := some 3 }

/-- Sample order whose payment has been captured. -/
def samplePaidOrder : Order :=
  { sampleOrder with
    id := "order-789"
    paymentStatus := .PAID
    paidAt := some 2 }

/-- Sample store holding the pending and the shipped orders. -/
def sampleStore : OrderStore :=
  [("order-123", sampleOrder), ("order-456", sampleShippedOrder)]

/-- Sample registration payload (user.service.spec fixtures). -/
def sampleRegisterDto : RegisterDto :=
  { email := "test@example.com"
    password := "weak"
    firstName := "John"
    lastName := "Doe"
    phoneNumber := none }

/-- Password verdict rejecting every password with a fixed rule violation,
standing in for `validatePasswordStrength` on a weak password. -/
def rejectAllPasswords : String → PasswordValidation :=
  fun _ => { valid := false, errors := ["Password must be at least 8 characters"] }

/-- Sample product update payload carrying a compareAtPrice but no price. -/
def sampleCompareOnlyUpdate : UpdateProductDto :=
  { name := none
    description := none
    price := none
    compareAtPrice := some 5
    categoryId := none }

/-- An order found in the store under an id is stored under that id. -/
theorem findOrder_mem {st : OrderStore} {id : String} {o : Order}
    (h : findOrder st id = some o) : (id, o) ∈ st := by
  induction st with
  | nil => simp [findOrder] at h
  | cons p rest ih =>
    rw [findOrder] at h
    by_cases hp : p.1 = id
    · rw [if_pos hp] at h
      injection h with h2
      rw [← hp, ← h2]
      exact List.mem_cons_self _ _
    · rw [if_neg hp] at h
      exact List.mem_cons_of_mem _ (ih h)

/-- The single-row write keeps the store invariant as long as the written
order satisfies the total invariant. -/
theorem setOrder_storeInvariant {st : OrderStore} {id : String} {o : Order}
    (hst : storeInvariant st) (ho : totalInvariant o) :
    storeInvariant (setOrder st id o) := by
  intro p hp
  rw [setOrder, List.mem_map] at hp
  obtain ⟨q, hq, rfl⟩ := hp
  by_cases hqi : q.1 = id
  · simp only [if_pos hqi]
    exact ho
  · simp only [if_neg hqi]
    exact hst q hq

/-- Read-modify-write operations keep the store invariant and return
invariant-satisfying orders, provided their transform does. -/
theorem updateWith_storeInvariant (st : OrderStore) (id : String)
    (f : Order → Except OrderError Order)
    (hf : ∀ o o', totalInvariant o → f o = .ok o' → totalInvariant o')
    (hst : storeInvariant st) :
    storeInvariant (updateWith st id f).2 ∧
      ∀ o', (updateWith st id f).1 = .ok o' → totalInvariant o' := by
  cases hfind : findOrder st id with
  | none =>
    simp only [updateWith, hfind]
    refine ⟨hst, ?_⟩
    intro o' h
    simp at h
  | some o =>
    cases hfo : f o with
    | error e =>
      simp only [updateWith, hfind, hfo]
      refine ⟨hst, ?_⟩
      intro o' h
      simp at h
    | ok o' =>
      have ho : totalInvariant o := hst (id, o) (findOrder_mem hfind)
      have ho' := hf o o' ho hfo
      simp only [updateWith, hfind, hfo]
      refine ⟨setOrder_storeInvariant hst ho', ?_⟩
      intro o'' h
      simp only [Except.ok.injEq] at h
      rw [← h]
      exact ho'

/-- The freshly created order satisfies the total invariant: its total is
computed as subtotal + tax + shipping with no discount. -/
theorem mkNewOrder_totalInvariant (newId : String) (year seq now : Nat)
    (userId : String) (items : List OrderItem) (addr : Address) :
    totalInvariant (OrderService.mkNewOrder newId year seq now userId items addr) := by
  simp [OrderService.mkNewOrder, totalInvariant]

/-- Confirming an order does not touch its monetary fields. -/
theorem confirmStep_totalInvariant {o o' : Order} (ho : totalInvariant o)
    (hfo : OrderService.confirmStep o = .ok o') : totalInvariant o' := by
  unfold OrderService.confirmStep at hfo
  split at hfo
  · injection hfo with h1
    rw [← h1]
    simpa [totalInvariant] using ho
  · simp at hfo

/-- Processing a payment does not touch the monetary fields. -/
theorem payStep_totalInvariant {ref : Option String} {now : Nat}
    {o o' : Order} (ho : totalInvariant o)
    (hfo : OrderService.payStep ref now o = .ok o') : totalInvariant o' := by
  unfold OrderService.payStep at hfo
  split at hfo <;>
  · injection hfo with h1
    rw [← h1]
    simpa [totalInvariant] using ho

/-- Shipping an order does not touch its monetary fields. -/
theorem shipStep_totalInvariant {tracking : String} {now : Nat}
    {o o' : Order} (ho : totalInvariant o)
    (hfo : OrderService.shipStep tracking now o = .ok o') : totalInvariant o' := by
  unfold OrderService.shipStep at hfo
  split at hfo
  · injection hfo with h1
    rw [← h1]
    simpa [totalInvariant] using ho
  · simp at hfo

/-- Delivering an order does not touch its monetary fields. -/
theorem deliverStep_totalInvariant {now : Nat} {o o' : Order}
    (ho : totalInvariant o)
    (hfo : OrderService.deliverStep now o = .ok o') : totalInvariant o' := by
  unfold OrderService.deliverStep at hfo
  split at hfo
  · injection hfo with h1
    rw [← h1]
    simpa [totalInvariant] using ho
  · simp at hfo

/-- Cancelling an order does not touch its monetary fields. -/
theorem cancelStep_totalInvariant {now : Nat} {o o' : Order}
    (ho : totalInvariant o)
    (hfo : OrderService.cancelStep now o = .ok o') : totalInvariant o' := by
  unfold OrderService.cancelStep at hfo
  split at hfo
  · injection hfo with h1
    rw [← h1]
    simpa [totalInvariant] using ho
  · simp at hfo

/-- A successful discount recomputes the total against the new discount
amount, reestablishing the invariant. -/
theorem discountStep_totalInvariant {code : String} {amount : ℚ}
    {o o' : Order} (_ho : totalInvariant o)
    (hfo : OrderService.discountStep code amount o = .ok o') :
    totalInvariant o' := by
  unfold OrderService.discountStep at hfo
  split at hfo
  · simp at hfo
  · split at hfo
    · simp at hfo
    · injection hfo with h1
      rw [← h1]
      simp [totalInvariant, OrderService.discountedOrder]

/-- C1: after every mutating Order Service operation (createOrder,
confirmOrder, processPayment, shipOrder, deliverOrder, cancelOrder,
applyDiscount) every stored order, and every order the operation returns,
satisfies total = subtotal + taxAmount + shippingCost − discountAmount with
the discount defaulting to 0 when absent; and getOrderTotal returns exactly
this value for the order it reads. -/
theorem c1_total_invariant :
    (∀ st newId year seq now userId items addr r st',
        OrderService.createOrder st newId year seq now userId items addr = (r, st') →
        storeInvariant st →
        storeInvariant st' ∧ ∀ o, r = .ok o → totalInvariant o) ∧
    (∀ st id r st', OrderService.confirmOrder st id = (r, st') →
        storeInvariant st →
        storeInvariant st' ∧ ∀ o, r = .ok o → totalInvariant o) ∧
    (∀ st id ref now r st', OrderService.processPayment st id ref now = (r, st') →
        storeInvariant st →
        storeInvariant st' ∧ ∀ o, r = .ok o → totalInvariant o) ∧
    (∀ st id tracking now r st', OrderService.shipOrder st id tracking now = (r, st') →
        storeInvariant st →
        storeInvariant st' ∧ ∀ o, r = .ok o → totalInvariant o) ∧
    (∀ st id now r st', OrderService.deliverOrder st id now = (r, st') →
        storeInvariant st →
        storeInvariant st' ∧ ∀ o, r = .ok o → totalInvariant o) ∧
    (∀ st id now r st', OrderService.cancelOrder st id now = (r, st') →
        storeInvariant st →
        storeInvariant st' ∧ ∀ o, r = .ok o → totalInvariant o) ∧
    (∀ st id code amount r st', OrderService.applyDiscount st id code amount = (r, st') →
        storeInvariant st →
        storeInvariant st' ∧ ∀ o, r = .ok o → totalInvariant o) ∧
    (∀ st id o, findOrder st id = some o →
        OrderService.getOrderTotal st id =
          .ok (o.subtotal + o.taxAmount + o.shippingCost - o.discountAmount.getD 0)) := by
  refine ⟨?_, ?_, ?_, ?_, ?_, ?_, ?_, ?_⟩
  · intro st newId year seq now userId items addr r st' h hst
    unfold OrderService.createOrder at h
    split at h
    · injection h with h1 h2
      subst h1; subst h2
      refine ⟨hst, ?_⟩
      intro o ho
      simp at ho
    · split at h
      · injection h with h1 h2
        subst h1; subst h2
        refine ⟨hst, ?_⟩
        intro o ho
        simp at ho
      · split at h
        · injection h with h1 h2
          subst h1; subst h2
          refine ⟨hst, ?_⟩
          intro o ho
          simp at ho
        · injection h with h1 h2
          subst h1; subst h2
          refine ⟨?_, ?_⟩
          · intro p hp
            rcases List.mem_cons.mp hp with hp1 | hp2
            · rw [hp1]
              exact mkNewOrder_totalInvariant newId year seq now userId items addr
            · exact hst p hp2
          · intro o ho
            simp only [Except.ok.injEq] at ho
            rw [← ho]
            exact mkNewOrder_totalInvariant newId year seq now userId items addr
  · intro st id r st' h hst
    unfold OrderService.confirmOrder at h
    have key := updateWith_storeInvariant st id OrderService.confirmStep
      (fun _ _ ho hfo => confirmStep_totalInvariant ho hfo) hst
    rw [h] at key
    exact key
  · intro st id ref now r st' h hst
    unfold OrderService.processPayment at h
    have key := updateWith_storeInvariant st id (OrderService.payStep ref now)
      (fun _ _ ho hfo => payStep_totalInvariant ho hfo) hst
    rw [h] at key
    exact key
  · intro st id tracking now r st' h hst
    unfold OrderService.shipOrder at h
    have key := updateWith_storeInvariant st id
      (OrderService.shipStep tracking now)
      (fun _ _ ho hfo => shipStep_totalInvariant ho hfo) hst
    rw [h] at key
    exact key
  · intro st id now r st' h hst
    unfold OrderService.deliverOrder at h
    have key := updateWith_storeInvariant st id (OrderService.deliverStep now)
      (fun _ _ ho hfo => deliverStep_totalInvariant ho hfo) hst
    rw [h] at key
    exact key
  · intro st id now r st' h hst
    unfold OrderService.cancelOrder at h
    have key := updateWith_storeInvariant st id (OrderService.cancelStep now)
      (fun _ _ ho hfo => cancelStep_totalInvariant ho hfo) hst
    rw [h] at key
    exact key
  · intro st id code amount r st' h hst
    unfold OrderService.applyDiscount at h
    have key := updateWith_storeInvariant st id
      (OrderService.discountStep code amount)
      (fun _ _ ho hfo => discountStep_totalInvariant ho hfo) hst
    rw [h] at key
    exact key
  · intro st id o h
    unfold OrderService.getOrderTotal
    rw [h]
    rfl

/-- C1 witness: on the sample store the formula is returned for the sample
pending order (100 + 10 + 10 − 0). -/
theorem c1_total_invariant_witness :
    OrderService.getOrderTotal sampleStore "order-123" =
      .ok (sampleOrder.subtotal + sampleOrder.taxAmount +
        sampleOrder.shippingCost - sampleOrder.discountAmount.getD 0) :=
  c1_total_invariant.2.2.2.2.2.2.2 sampleStore "order-123" sampleOrder rfl

/-- C2: `canBeCancelled()` holds exactly on PENDING and CONFIRMED, and for
every stored order, cancelOrder succeeds (status CANCELLED, cancelledAt
stamped) from PENDING or CONFIRMED and fails with the fixed
InvalidStateTransitionError message from SHIPPED, DELIVERED or
CANCELLED. -/
theorem c2_cancellation :
    (∀ o : Order, o.canBeCancelled = true ↔
        (o.status = .PENDING ∨ o.status = .CONFIRMED)) ∧
    (∀ st id o now, findOrder st id = some o →
      ((o.status = .PENDING ∨ o.status = .CONFIRMED) →
        OrderService.cancelOrder st id now =
          (.ok { o with status := .CANCELLED, cancelledAt := some now },
           setOrder st id
             { o with status := .CANCELLED, cancelledAt := some now })) ∧
      ((o.status = .SHIPPED ∨ o.status = .DELIVERED ∨ o.status = .CANCELLED) →
        OrderService.cancelOrder st id now =
          (.error (.invalidStateTransitionError
            "Order cannot be cancelled in current status"), st))) := by
  constructor
  · intro o
    cases h : o.status <;> simp [Order.canBeCancelled, h]
  · intro st id o now hfind
    constructor
    · intro hs
      have hc : o.canBeCancelled = true := by
        rcases hs with h1 | h1 <;> simp [Order.canBeCancelled, h1]
      unfold OrderService.cancelOrder
      simp [updateWith, hfind, OrderService.cancelStep, hc]
    · intro hs
      have hc : o.canBeCancelled = false := by
        rcases hs with h1 | h1 | h1 <;> simp [Order.canBeCancelled, h1]
      unfold OrderService.cancelOrder
      simp [updateWith, hfind, OrderService.cancelStep, hc]

/-- C2 witness: the sample PENDING order cancels; the sample SHIPPED order
is refused with the fixed message. -/
theorem c2_cancellation_witness :
    OrderService.cancelOrder sampleStore "order-123" 7 =
      (.ok { sampleOrder with status := .CANCELLED, cancelledAt := some 7 },
       setOrder sampleStore "order-123"
         { sampleOrder with status := .CANCELLED, cancelledAt := some 7 }) ∧
    OrderService.cancelOrder sampleStore "order-456" 7 =
      (.error (.invalidStateTransitionError
        "Order cannot be cancelled in current status"), sampleStore) :=
  ⟨(c2_cancellation.2 sampleStore "order-123" sampleOrder 7 rfl).1 (Or.inl rfl),
   (c2_cancellation.2 sampleStore "order-456" sampleShippedOrder 7 rfl).2
     (Or.inl rfl)⟩

/-- C3: createOrder rejects an empty item list with "Order must contain at
least one item" and any non-positive quantity with "Item quantity must be
positive", in both cases returning the store untouched — no order is
persisted. -/
theorem c3_create_validation :
    (∀ st newId year seq now userId addr,
      OrderService.createOrder st newId year seq now userId [] addr =
        (.error (.validationError "Order must contain at least one item"),
         st)) ∧
    (∀ st newId year seq now userId items addr i,
      i ∈ items → i.quantity ≤ 0 →
      OrderService.createOrder st newId year seq now userId items addr =
        (.error (.validationError "Item quantity must be positive"), st)) := by
  constructor
  · intro st newId year seq now userId addr
    rfl
  · intro st newId year seq now userId items addr i hi hq
    have hne : items.isEmpty = false := by
      cases items with
      | nil => simp at hi
      | cons a l => rfl
    have hany : (items.any fun i => decide (i.quantity ≤ 0)) = true := by
      rw [List.any_eq_true]
      exact ⟨i, hi, by simpa using hq⟩
    unfold OrderService.createOrder
    simp [hne, hany]

/-- C3 witness: the empty item list and a quantity of −1 are both refused
on the empty store, which is returned unchanged. -/
theorem c3_create_validation_witness :
    OrderService.createOrder [] "order-1" 2024 1 0 "user-123" []
        sampleAddress =
      (.error (.validationError "Order must contain at least one item"),
       []) ∧
    OrderService.createOrder [] "order-1" 2024 1 0 "user-123"
        [{ sampleItem50x2 with quantity := -1 }] sampleAddress =
      (.error (.validationError "Item quantity must be positive"), []) :=
  ⟨c3_create_validation.1 [] "order-1" 2024 1 0 "user-123" sampleAddress,
   c3_create_validation.2 [] "order-1" 2024 1 0 "user-123" _ sampleAddress
     { sampleItem50x2 with quantity := -1 } (List.mem_singleton_self _)
     (by decide)⟩

/-- C4: applyDiscount rejects a non-positive amount ("Discount amount must
be positive") and, on orders with non-negative subtotal, an amount above
the subtotal ("Discount amount cannot exceed order subtotal"); for an
amount in (0, subtotal] it records discountCode and discountAmount and the
new total is the pre-discount total (subtotal + tax + shipping) decreased
by exactly the amount. -/
theorem c4_discount_bounds :
    ∀ st id o code amount, findOrder st id = some o →
      (amount ≤ 0 →
        OrderService.applyDiscount st id code amount =
          (.error (.validationError "Discount amount must be positive"),
           st)) ∧
      (0 ≤ o.subtotal → o.subtotal < amount →
        OrderService.applyDiscount st id code amount =
          (.error (.validationError
            "Discount amount cannot exceed order subtotal"), st)) ∧
      (0 < amount → amount ≤ o.subtotal →
        OrderService.applyDiscount st id code amount =
          (.ok (OrderService.discountedOrder o code amount),
           setOrder st id (OrderService.discountedOrder o code amount)) ∧
        (OrderService.discountedOrder o code amount).discountCode =
          some code ∧
        (OrderService.discountedOrder o code amount).discountAmount =
          some amount ∧
        (OrderService.discountedOrder o code amount).total =
          o.subtotal + o.taxAmount + o.shippingCost - amount) := by
  intro st id o code amount hfind
  refine ⟨?_, ?_, ?_⟩
  · intro h1
    unfold OrderService.applyDiscount
    simp [updateWith, hfind, OrderService.discountStep, h1]
  · intro h0 h2
    have h1 : ¬amount ≤ 0 := by
      intro hle
      exact absurd (lt_of_le_of_lt h0 h2) (not_lt.mpr hle)
    unfold OrderService.applyDiscount
    simp [updateWith, hfind, OrderService.discountStep, h1, h2]
  · intro h1 h2
    have h1' : ¬amount ≤ 0 := not_le.mpr h1
    have h2' : ¬o.subtotal < amount := not_lt.mpr h2
    unfold OrderService.applyDiscount
    exact ⟨by simp [updateWith, hfind, OrderService.discountStep, h1', h2'],
      rfl, rfl, rfl⟩

/-- C4 witness: a 20.00 discount on the sample order (subtotal 100)
succeeds and the recorded order carries the recomputed total. -/
theorem c4_discount_bounds_witness :
    OrderService.applyDiscount sampleStore "order-123" "SAVE20" 20 =
      (.ok (OrderService.discountedOrder sampleOrder "SAVE20" 20),
       setOrder sampleStore "order-123"
         (OrderService.discountedOrder sampleOrder "SAVE20" 20)) :=
  ((c4_discount_bounds sampleStore "order-123" sampleOrder "SAVE20" 20
      rfl).2.2 (by norm_num) (by norm_num [sampleOrder])).1

/-- C5: for a stored order, processPayment with a truthy payment reference
returns and persists the order with only paymentStatus set to PAID and
paidAt set to now, and with a falsy reference the order with only
paymentStatus set to FAILED; every other field, the lifecycle Status
included, is carried over unchanged (the record updates touch no other
field). -/
theorem c5_process_payment :
    ∀ st id o ref now, findOrder st id = some o →
      (truthy ref = true →
        OrderService.processPayment st id ref now =
          (.ok { o with paymentStatus := .PAID, paidAt := some now },
           setOrder st id
             { o with paymentStatus := .PAID, paidAt := some now })) ∧
      (truthy ref = false →
        OrderService.processPayment st id ref now =
          (.ok { o with paymentStatus := .FAILED },
           setOrder st id { o with paymentStatus := .FAILED })) := by
  intro st id o ref now hfind
  constructor <;> intro ht <;>
    unfold OrderService.processPayment <;>
    simp [updateWith, hfind, OrderService.payStep, ht]

/-- C5 witness: a concrete payment reference marks the sample order PAID
with paidAt stamped; a missing reference marks it FAILED. -/
theorem c5_process_payment_witness :
    OrderService.processPayment sampleStore "order-123"
        (some "payment-ref-123") 5 =
      (.ok { sampleOrder with paymentStatus := .PAID, paidAt := some 5 },
       setOrder sampleStore "order-123"
         { sampleOrder with paymentStatus := .PAID, paidAt := some 5 }) ∧
    OrderService.processPayment sampleStore "order-123" none 5 =
      (.ok { sampleOrder with paymentStatus := .FAILED },
       setOrder sampleStore "order-123"
         { sampleOrder with paymentStatus := .FAILED }) :=
  ⟨(c5_process_payment sampleStore "order-123" sampleOrder
      (some "payment-ref-123") 5 rfl).1 rfl,
   (c5_process_payment sampleStore "order-123" sampleOrder none 5 rfl).2 rfl⟩

/-- C6: on a valid input createOrder persists an order whose subtotal is
the sum over items of unitPrice × quantity, whose taxAmount is
round2(subtotal × 0.10) and whose shippingCost is the fixed 10.00; in
particular items [(50, 2), (30, 3)] give subtotal 190.00 and tax 19.00, and
subtotal 100.00 gives tax 10.00. -/
theorem c6_monetary_computation :
    (∀ st newId year seq now userId items addr,
        items ≠ [] → (∀ i ∈ items, 0 < i.quantity) →
        (∀ i ∈ items, 0 ≤ i.unitPrice) →
        OrderService.createOrder st newId year seq now userId items addr =
          (.ok (OrderService.mkNewOrder newId year seq now userId items addr),
           (newId,
             OrderService.mkNewOrder newId year seq now userId items addr)
             :: st)) ∧
    (∀ newId year seq now userId items addr,
        (OrderService.mkNewOrder newId year seq now userId items
            addr).subtotal =
          (items.map fun i => i.unitPrice * (i.quantity : ℚ)).sum ∧
        (OrderService.mkNewOrder newId year seq now userId items
            addr).taxAmount =
          round2 ((items.map fun i => i.unitPrice * (i.quantity : ℚ)).sum *
            (10 / 100)) ∧
        (OrderService.mkNewOrder newId year seq now userId items
            addr).shippingCost = 10) ∧
    computeSubtotal [sampleItem50x2, sampleItem30x3] = 190 ∧
    computeTax 190 = 19 ∧
    computeTax 100 = 10 := by
  refine ⟨?_, ?_, ?_, ?_, ?_⟩
  · intro st newId year seq now userId items addr hne hq hp
    have h1 : items.isEmpty = false := by
      cases items with
      | nil => simp at hne
      | cons a l => rfl
    have h2 : (items.any fun i => decide (i.quantity ≤ 0)) = false := by
      rw [List.any_eq_false]
      intro x hx
      simpa using not_le.mpr (hq x hx)
    have h3 : (items.any fun i => decide (i.unitPrice < 0)) = false := by
      rw [List.any_eq_false]
      intro x hx
      simpa using not_lt.mpr (hp x hx)
    unfold OrderService.createOrder
    simp [h1, h2, h3]
  · intro newId year seq now userId items addr
    exact ⟨rfl, rfl, rfl⟩
  · norm_num [computeSubtotal, sampleItem50x2, sampleItem30x3]
  · norm_num [computeTax, round2]
  · norm_num [computeTax, round2]

/-- C6 witness: creating an order from [(50, 2), (30, 3)] on the empty
store persists the freshly built order. -/
theorem c6_monetary_computation_witness :
    OrderService.createOrder [] "order-1" 2024 1 0 "user-123"
        [sampleItem50x2, sampleItem30x3] sampleAddress =
      (.ok (OrderService.mkNewOrder "order-1" 2024 1 0 "user-123"
          [sampleItem50x2, sampleItem30x3] sampleAddress),
       [("order-1", OrderService.mkNewOrder "order-1" 2024 1 0 "user-123"
          [sampleItem50x2, sampleItem30x3] sampleAddress)]) :=
  c6_monetary_computation.1 [] "order-1" 2024 1 0 "user-123" _ sampleAddress
    (by simp) (by decide) (by decide)

/-- C7: the revenue aggregate sums `total` over exactly the stored orders
whose paymentStatus is PAID: it is 0 on the empty store, adding a PAID
order adds its total, adding a non-PAID order adds nothing, a store with no
PAID order yields 0, and in closed form it is the sum of the totals of the
PAID orders. -/
theorem c7_revenue_aggregation :
    OrderService.getTotalRevenue ([] : OrderStore) = 0 ∧
    (∀ id o st, o.paymentStatus = .PAID →
        OrderService.getTotalRevenue ((id, o) :: st) =
          o.total + OrderService.getTotalRevenue st) ∧
    (∀ id o st, o.paymentStatus ≠ .PAID →
        OrderService.getTotalRevenue ((id, o) :: st) =
          OrderService.getTotalRevenue st) ∧
    (∀ st : OrderStore, (∀ p ∈ st, p.2.paymentStatus ≠ .PAID) →
        OrderService.getTotalRevenue st = 0) ∧
    (∀ st : OrderStore,
        OrderService.getTotalRevenue st =
          (((st.map Prod.snd).filter fun o =>
              decide (o.paymentStatus = .PAID)).map Order.total).sum) := by
  refine ⟨rfl, ?_, ?_, ?_, ?_⟩
  · intro id o st h
    simp [OrderService.getTotalRevenue, h]
  · intro id o st h
    simp [OrderService.getTotalRevenue, h]
  · intro st h
    induction st with
    | nil => rfl
    | cons p rest ih =>
      have hp := h p (List.mem_cons_self p rest)
      have hr := ih fun q hq => h q (List.mem_cons_of_mem p hq)
      simp only [OrderService.getTotalRevenue, List.foldr_cons] at hr ⊢
      rw [if_neg hp]
      exact hr
  · intro st
    induction st with
    | nil => rfl
    | cons p rest ih =>
      by_cases hp : p.2.paymentStatus = .PAID
      · simp only [OrderService.getTotalRevenue, List.foldr_cons] at ih ⊢
        rw [if_pos hp, ih]
        simp [hp, List.filter_cons]
      · simp only [OrderService.getTotalRevenue, List.foldr_cons] at ih ⊢
        rw [if_neg hp, ih]
        simp [hp, List.filter_cons]

/-- C7 witness: a store holding one PAID order yields that order's total
plus the empty-store revenue. -/
theorem c7_revenue_aggregation_witness :
    OrderService.getTotalRevenue [("order-789", samplePaidOrder)] =
      samplePaidOrder.total + OrderService.getTotalRevenue [] :=
  c7_revenue_aggregation.2.1 "order-789" samplePaidOrder [] rfl

/-- C8: whenever the password fails strength validation, register returns
the BadRequestError built from the joined rule violations with an empty
effect trace — no repository createUser call and no notification send has
happened, so no user record is created and no email is sent. -/
theorem c8_register_password_gate :
    ∀ validate hash freshToken hasNotifier (data : RegisterDto),
      (validate data.password).valid = false →
      UserService.register validate hash freshToken hasNotifier data =
        ([], .error (.badRequestError
          (String.intercalate ", " (validate data.password).errors))) := by
  intro validate hash freshToken hasNotifier data h
  unfold UserService.register
  simp [h]

/-- C8 witness: a rejecting validator makes register fail on the sample
payload with no effects. -/
theorem c8_register_password_gate_witness :
    UserService.register rejectAllPasswords id "token-1" true
        sampleRegisterDto =
      ([], .error (.badRequestError (String.intercalate ", "
        (rejectAllPasswords sampleRegisterDto.password).errors))) :=
  c8_register_password_gate rejectAllPasswords id "token-1" true
    sampleRegisterDto rfl

/-- C9: updateProduct forwards any payload without a price to the
repository unconditionally — in particular one carrying only a
compareAtPrice, whatever its value — and applies the
compareAtPrice-exceeds-price check exactly when both fields are present. -/
theorem c9_update_product_guard :
    (∀ productId (data : UpdateProductDto), data.price = none →
        ProductService.updateProduct productId data =
          .ok (.update productId data)) ∧
    (∀ productId (data : UpdateProductDto) p c,
        data.price = some p → data.compareAtPrice = some c → 0 < p →
        (ProductService.updateProduct productId data =
            .ok (.update productId data) ↔ p < c)) := by
  constructor
  · intro productId data h
    unfold ProductService.updateProduct
    rw [h]
  · intro productId data p c hp hc hpos
    unfold ProductService.updateProduct
    simp only [hp]
    rw [if_neg (not_le.mpr hpos)]
    simp only [hc]
    by_cases hcp : c ≤ p
    · rw [if_pos hcp]
      exact iff_of_false (by simp) (not_lt.mpr hcp)
    · rw [if_neg hcp]
      exact iff_of_true rfl (not_le.mp hcp)

/-- C9 witness: the sample payload carrying compareAtPrice 5 and no price
is forwarded untouched. -/
theorem c9_update_product_guard_witness :
    ProductService.updateProduct "prod-1" sampleCompareOnlyUpdate =
      .ok (.update "prod-1" sampleCompareOnlyUpdate) :=
  c9_update_product_guard.1 "prod-1" sampleCompareOnlyUpdate rfl

/-- C10: getUserDisplayName returns the trimmed "firstName lastName"
whenever that trimmed string is non-empty and the email otherwise; with
both name fields empty it returns the email. -/
theorem c10_display_name :
    ∀ u : UserService.UserRecord,
      (UserService.getUserFullName u ≠ "" →
        UserService.getUserDisplayName u = UserService.getUserFullName u) ∧
      (UserService.getUserFullName u = "" →
        UserService.getUserDisplayName u = u.email) ∧
      (u.firstName = "" → u.lastName = "" →
        UserService.getUserDisplayName u = u.email) := by
  intro u
  refine ⟨?_, ?_, ?_⟩
  · intro h
    simp only [UserService.getUserDisplayName]
    rw [if_neg h]
  · intro h
    simp only [UserService.getUserDisplayName]
    rw [if_pos h]
  · intro h1 h2
    have h : UserService.getUserFullName u = "" := by
      unfold UserService.getUserFullName
      rw [h1, h2]
      decide
    simp only [UserService.getUserDisplayName]
    rw [if_pos h]

/-- C10 witness: with both name fields empty the display name is the
email. -/
theorem c10_display_name_witness :
    UserService.getUserDisplayName
      { email := "test@example.com", firstName := "", lastName := "" } =
      "test@example.com" :=
  (c10_display_name
    { email := "test@example.com", firstName := "", lastName := "" }).2.2
    rfl rfl

end ECom
